import Mathlib

/-! Shallow embedding of `src/weather_display.py` (miria/WeatherDisplay).

Modelling conventions:
* JSON documents are an inductive `Json` type; a Python `KeyError` /
  `IndexError` / type error inside a `try` block is modelled by the
  surrounding parser returning `none`.
* Python numbers (JSON numbers, `time.time()`) are modelled as `ℚ`.
* The filesystem relevant to the icon cache is modelled as the set (list)
  of existing file paths (`Fs`); `os.path.join a b` is `a ++ "/" ++ b`.
  File contents are not modelled: only existence matters to the code paths
  under study (`os.path.exists` checks and the write performed by
  `cairosvg.svg2png`, which is modelled as making the target path exist).
* Functions that can raise outside a `try` block return `Except PyError _`.
* `sys.exit(1)` in startup validation is modelled by the
  `InitOutcome.fatalExit` constructor.
* External-library calls (`webcolors`, network I/O, wall-clock time) are
  modelled as explicit parameters: the already-resolved result of
  `get_hex`, the raw fetched documents, the reachability-probe outcome and
  the sampled times are inputs to the embedded functions.
-/

deriving instance DecidableEq for Except

namespace WeatherDisplay

/-- Association-list lookup, modelling Python `dict` indexing (`d[k]`
returning `some` value iff the key is present). -/
def alist_lookup {α β : Type} [DecidableEq α] : List (α × β) → α → Option β
  | [], _ => none
  | (k, v) :: rest, key => if k = key then some v else alist_lookup rest key

/-- Minimal JSON value model for the two provider documents. -/
inductive Json where
  | null : Json
  | num : ℚ → Json
  | str : String → Json
  | arr : List Json → Json
  | obj : List (String × Json) → Json

/-- Indexing `j[key]` on a JSON object; `none` models both a missing key and
indexing a non-object (Python `KeyError` / `TypeError`). -/
def Json.get : Json → String → Option Json
  | .obj fields, key => alist_lookup fields key
  | _, _ => none

/-- Numeric JSON payload (provider-contract typing). -/
def Json.asNum : Json → Option ℚ
  | .num q => some q
  | _ => none

/-- String JSON payload (provider-contract typing). -/
def Json.asStr : Json → Option String
  | .str s => some s
  | _ => none

/-- Array JSON payload. -/
def Json.asArr : Json → Option (List Json)
  | .arr l => some l
  | _ => none

/-- Indexing `j[i]` on a JSON array; `none` models `IndexError`. -/
def Json.idx : Json → Nat → Option Json
  | .arr l, i => l.get? i
  | _, _ => none

/-- Embeds the `Weather` container class (current conditions). The parser
assigns every field, so no class-attribute defaults are needed here;
`wind_dir` always receives the numeric `wind.deg` value on the successful
path, hence is modelled as `ℚ`. -/
structure Weather where
  condition_id : ℚ
  condition_text : String
  condition_time : String
  hourly_precip : ℚ
  humidity : ℚ
  temp : ℚ
  timezone : ℚ
  wind_speed : ℚ
  wind_dir : ℚ
deriving DecidableEq

/-- Embeds the `Forecast` container class (one forecast entry). -/
structure Forecast where
  condition_id : ℚ
  condition_text : String
  condition_time : String
  humidity : ℚ
  precip_chance : ℚ
  temp : ℚ
  timestamp : ℚ
deriving DecidableEq

/-- Embeds `WeatherDataFetcher._parse_condition_time`: classify by the
trailing character of the provider icon label. `none` models the
`IndexError` raised by `icon_label[-1]` on an empty string (caught by the
enclosing `try` of the calling parser). -/
def parse_condition_time (icon_label : String) : Option String :=
  match icon_label.data.getLast? with
  | none => none
  | some c => some (if c = 'd' then "day" else if c = 'n' then "night" else "general")

/-- Embeds `WeatherDataFetcher._parse_current_weather`: extract the current
conditions from a JSON document; `none` models the caught exception on any
missing field. The `rain`/`snow` hourly volumes are summed into
`hourly_precip` (starting from the class default `0`); a present `rain` or
`snow` object lacking the `"1h"` key fails the whole parse, as in the
source. -/
def parse_current_weather (j : Json) : Option Weather :=
  (j.get "weather").bind fun w =>
  (w.idx 0).bind fun w0 =>
  ((w0.get "id").bind Json.asNum).bind fun cid =>
  ((w0.get "description").bind Json.asStr).bind fun desc =>
  ((w0.get "icon").bind Json.asStr).bind fun icon =>
  (parse_condition_time icon).bind fun ctime =>
  (j.get "main").bind fun main =>
  ((main.get "humidity").bind Json.asNum).bind fun hum =>
  ((main.get "temp").bind Json.asNum).bind fun temp =>
  ((j.get "timezone").bind Json.asNum).bind fun tz =>
  (j.get "wind").bind fun wind =>
  ((wind.get "deg").bind Json.asNum).bind fun wdeg =>
  ((wind.get "speed").bind Json.asNum).bind fun wspeed =>
  (match j.get "rain" with
   | none => some (0 : ℚ)
   | some r => Option.map (fun v => (0 : ℚ) + v) ((r.get "1h").bind Json.asNum)).bind fun p1 =>
  (match j.get "snow" with
   | none => some p1
   | some s => Option.map (fun v => p1 + v) ((s.get "1h").bind Json.asNum)).bind fun p2 =>
  some { condition_id := cid, condition_text := desc, condition_time := ctime,
         hourly_precip := p2, humidity := hum, temp := temp, timezone := tz,
         wind_speed := wspeed, wind_dir := wdeg }

/-- Embeds one iteration of the loop body of
`WeatherDataFetcher._parse_forecasts`. Note the source stores
`forecast_data['pop'] * 100` into `precip_chance`. -/
def parse_forecast_item (j : Json) : Option Forecast :=
  (j.get "weather").bind fun w =>
  (w.idx 0).bind fun w0 =>
  ((w0.get "id").bind Json.asNum).bind fun cid =>
  ((w0.get "description").bind Json.asStr).bind fun desc =>
  ((w0.get "icon").bind Json.asStr).bind fun icon =>
  (parse_condition_time icon).bind fun ctime =>
  ((j.get "main").bind fun m => (m.get "humidity").bind Json.asNum).bind fun hum =>
  ((j.get "pop").bind Json.asNum).bind fun pop =>
  ((j.get "main").bind fun m => (m.get "temp").bind Json.asNum).bind fun temp =>
  ((j.get "dt").bind Json.asNum).bind fun dt =>
  some { condition_id := cid, condition_text := desc, condition_time := ctime,
         humidity := hum, precip_chance := pop * 100, temp := temp, timestamp := dt }

/-- Embeds `WeatherDataFetcher._parse_forecasts`: parse every entry of the
`list` array; any failure (including a missing `list` key) aborts the
whole parse (the caught exception), yielding `none`. An empty `list`
parses successfully to `some []`. -/
def parse_forecasts (j : Json) : Option (List Forecast) :=
  ((j.get "list").bind Json.asArr).bind fun items => items.mapM parse_forecast_item

/-- Embeds the mutable state of a `WeatherDataFetcher` instance:
`weather`, `forecasts`, `last_weather_update`, `internet_active` (class
defaults `None`, `None`, `-1`, `False`) plus the instance attributes
`_last_weather_fetch` (initially `0`) and the configured
`_poll_interval_seconds`. -/
structure FetcherState where
  weather : Option Weather
  forecasts : Option (List Forecast)
  last_weather_update : ℚ
  internet_active : Bool
  _last_weather_fetch : ℚ
  _poll_interval_seconds : ℚ
deriving DecidableEq

/-- The fetcher state right after `WeatherDataFetcher.__init__`. -/
def fetcher_init (poll_interval_seconds : ℚ) : FetcherState :=
  { weather := none, forecasts := none, last_weather_update := -1,
    internet_active := false, _last_weather_fetch := 0,
    _poll_interval_seconds := poll_interval_seconds }

/-- Embeds `WeatherDataFetcher._fetch_weather`. The two fetched documents
are inputs (`none` models `_fetch_url` returning `None` on a network
error); `t_fetch` is the `time.time()` sampled at the top of the method
and `t_commit` the `time.time()` sampled at the commit line. The source
commits `weather`, `forecasts` and `last_weather_update` together only
when `forecasts and weather` is truthy, i.e. the forecast parse produced a
non-empty list and the current-weather parse produced a value. -/
def fetch_weather (st : FetcherState) (weather_doc forecast_doc : Option Json)
    (t_fetch t_commit : ℚ) : FetcherState :=
  let st1 := { st with _last_weather_fetch := t_fetch }
  let weather := Option.bind weather_doc parse_current_weather
  let forecasts := Option.bind forecast_doc parse_forecasts
  match forecasts, weather with
  | some fs, some w =>
      if fs = [] then st1
      else { st1 with weather := some w, forecasts := some fs,
                      last_weather_update := t_commit }
  | _, _ => st1

/-- Embeds `WeatherDataFetcher.update_data`. `probe_ok` is the outcome of
`_fetch_internet_status` (which sets `internet_active`); `t_check` is the
`time.time()` in the rate-limiting test. The returned `Bool` records
whether `_fetch_weather` ran, i.e. whether the pair of network fetches was
performed this cycle. -/
def update_data (st : FetcherState) (probe_ok : Bool)
    (weather_doc forecast_doc : Option Json) (t_check t_fetch t_commit : ℚ) :
    FetcherState × Bool :=
  let st1 := { st with internet_active := probe_ok }
  if probe_ok = true ∧ st1._last_weather_fetch + st1._poll_interval_seconds < t_check then
    (fetch_weather st1 weather_doc forecast_doc t_fetch t_commit, true)
  else
    (st1, false)

/-- Python runtime errors that can escape the functions under study (no
enclosing `try` at the raise site). -/
inductive PyError where
  | keyError : PyError
  | fileNotFoundError : PyError
  | attributeError : PyError
deriving DecidableEq

/-- Python `"%d" % q`: conversion of a number to an integer by truncation
toward zero, as `int()` does on a float. -/
def ratTrunc (q : ℚ) : ℤ := if 0 ≤ q then ⌊q⌋ else ⌈q⌉

/-- Embeds a `WeatherFormatter` instance. `__init__` sets the attributes
`temp_unit = "°K"` and `wind_unit = "m/s"` (no leading underscore), then
assigns the distinct attributes `_temp_unit` / `_wind_unit` only in the
`metric` / `imperial` branches; an attribute never assigned is modelled as
`none`, and reading it raises `AttributeError`. -/
structure WeatherFormatter where
  time_format : String
  date_format : String
  units : String
  temp_unit : String
  wind_unit : String
  _temp_unit : Option String
  _wind_unit : Option String
deriving DecidableEq

/-- Embeds `WeatherFormatter.__init__` (reading `time_format`,
`date_format` and `units` from the config). -/
def formatter_init (time_format date_format units : String) : WeatherFormatter :=
  let f : WeatherFormatter :=
    { time_format := time_format, date_format := date_format, units := units,
      temp_unit := "°K", wind_unit := "m/s", _temp_unit := none, _wind_unit := none }
  if units = "metric" then { f with _temp_unit := some "°C" }
  else if units = "imperial" then { f with _temp_unit := some "°F", _wind_unit := some "mph" }
  else f

/-- The 16-entry `WeatherFormatter.directions` table. -/
def directions : List String :=
  ["N", "NNE", "NE", "ENE", "E", "ESE", "SE", "SSE",
   "S", "SSW", "SW", "WSW", "W", "WNW", "NW", "NNW"]

/-- The `index = round(degree / (360.0 / len(self.directions)))` line of
`format_wind_speed` (`len(self.directions) = 16`). For the integer-valued
degrees the provider supplies, `degree / 22.5` is never an exact
half-integer, so Mathlib `round` (half up) agrees with Python `round`
(half to even). -/
def wind_index (degree : ℚ) : ℤ := round (degree / (360 / 16))

/-- The `self.directions[(index % 16)]` subexpression of
`format_wind_speed`. The index `wind_index degree % 16` always lies in
`[0, 16)`, so the `getD` default is never used. -/
def wind_direction_label (degree : ℚ) : String :=
  directions.getD ((wind_index degree % 16).toNat) "N/A"

/-- Embeds `WeatherFormatter.format_wind_speed` (default `label=""`).
Reading the never-assigned `_wind_unit` attribute raises
`AttributeError`; otherwise the result is
`"%s %d %s %s" % (label, speed, self._wind_unit, direction)`. -/
def format_wind_speed (f : WeatherFormatter) (speed degree : ℚ) (label : String) :
    Except PyError String :=
  match f._wind_unit with
  | none => Except.error PyError.attributeError
  | some wu =>
      Except.ok (label ++ " " ++ toString (ratTrunc speed) ++ " " ++ wu ++ " " ++
        wind_direction_label degree)

/-- Embeds `WeatherFormatter.format_temp` (default `label=""`):
`"%s %d %s" % (label, temp, self._temp_unit)`, raising `AttributeError`
when `_temp_unit` was never assigned (units neither metric nor imperial). -/
def format_temp (f : WeatherFormatter) (temp : ℚ) (label : String) :
    Except PyError String :=
  match f._temp_unit with
  | none => Except.error PyError.attributeError
  | some tu => Except.ok (label ++ " " ++ toString (ratTrunc temp) ++ " " ++ tu)

/-- Embeds `WeatherFormatter.format_percentage` (default `label=""`):
`"%s %d%%" % (label, humidity)`. No attribute access can fail here. -/
def format_percentage (_f : WeatherFormatter) (humidity : ℚ) (label : String) : String :=
  label ++ " " ++ toString (ratTrunc humidity) ++ "%"

/-- Embeds `WeatherFormatter.format_forecast`: temperature, humidity and
`format_percentage(forecast.precip_chance * 100)` joined by newlines.
Note the second scaling by 100 applied to the already-scaled
`precip_chance` field. -/
def format_forecast (f : WeatherFormatter) (fc : Forecast) : Except PyError String :=
  match format_temp f fc.temp "T:" with
  | Except.error e => Except.error e
  | Except.ok t =>
      Except.ok (t ++ "\n" ++ format_percentage f fc.humidity "H:" ++ "\n" ++
        format_percentage f (fc.precip_chance * 100) "P:")

/-- Filesystem model for the icon cache: the list of existing paths. -/
abbrev Fs := List String

/-- Embeds `os.path.join` for the relative path components used by the source. -/
def path_join (a b : String) : String := a ++ "/" ++ b

/-- Python `str.endswith`. -/
def py_endswith (s suf : String) : Bool := suf.data.isSuffixOf s.data

/-- Replace-all on character lists, fuelled by the input length (one unit
of fuel per examined character suffices, since every step consumes at
least one character when the pattern is non-empty). -/
def replace_list (pat rep : List Char) : Nat → List Char → List Char
  | _, [] => []
  | 0, l => l
  | fuel+1, c :: rest =>
    if pat.isPrefixOf (c :: rest) ∧ pat ≠ [] then
      rep ++ replace_list pat rep fuel ((c :: rest).drop pat.length)
    else
      c :: replace_list pat rep fuel rest

/-- Python `str.replace` (replace all occurrences, left to right). -/
def py_replace (s pat rep : String) : String :=
  String.mk (replace_list pat.data rep.data s.data.length s.data)

/-- Embeds a `WeatherImageSelector` instance after construction:
the configured directories and mode, the loaded condition-code →
(time-of-day → filename) mapping table, and the `_initialized` flag
(which `_init_images` sets to `True` on every non-exiting path). -/
structure SelectorState where
  image_dir : String
  image_set : String
  color : String
  svg_dir : String
  image_mappings : List (ℤ × List (String × String))
  _initialized : Bool
deriving DecidableEq

/-- Embeds `WeatherImageSelector.has_image`: the condition code must be
mapped, and the secondary mapping must contain the requested time-of-day
key or the `general` key. -/
def has_image (st : SelectorState) (condition_id : ℤ) (condition_time : String) : Bool :=
  if st._initialized = false then false
  else
    match alist_lookup st.image_mappings condition_id with
    | none => false
    | some condition_map =>
        if (alist_lookup condition_map condition_time).isNone = true ∧
           (alist_lookup condition_map "general").isNone = true then false
        else true

/-- Embeds `WeatherImageSelector._maybe_generate_custom_image`. In custom
mode, when `path` does not exist, the SVG template
`svg_dir/<filename with .png replaced by .svg>` is opened — raising
`FileNotFoundError` when absent — and the recoloured PNG is written to
`path` (modelled as the path coming into existence). The returned `Bool`
records whether a generation write happened. -/
def maybe_generate_custom_image (st : SelectorState) (fs : Fs) (path filename : String) :
    Except PyError (Fs × Bool) :=
  if st.image_set = "custom" ∧ path ∉ fs then
    let svg_path := path_join st.svg_dir (py_replace filename ".png" ".svg")
    if svg_path ∈ fs then Except.ok (path :: fs, true)
    else Except.error PyError.fileNotFoundError
  else Except.ok (fs, false)

/-- Embeds `WeatherImageSelector.get_unknown_image`: the `wi-na.png` path
in the active image directory, generated on demand in custom mode. -/
def get_unknown_image (st : SelectorState) (fs : Fs) :
    Except PyError (String × Fs × Bool) :=
  let path := path_join st.image_dir "wi-na.png"
  match maybe_generate_custom_image st fs path "wi-na.png" with
  | Except.error e => Except.error e
  | Except.ok (fs2, wrote) => Except.ok (path, fs2, wrote)

/-- Embeds `WeatherImageSelector.get_image`. Returns
`(resolved path or Python None, filesystem, wrote)`. Note that after
`has_image` approved the pair, the source indexes
`self._image_mappings[condition_id][condition_time]` directly: when the
secondary mapping lacks `condition_time` (and only `general` is present)
this raises `KeyError` rather than falling back. -/
def get_image (st : SelectorState) (fs : Fs) (condition_id : ℤ) (condition_time : String) :
    Except PyError (Option String × Fs × Bool) :=
  if st._initialized = false then Except.ok (none, fs, false)
  else if has_image st condition_id condition_time = false then
    match get_unknown_image st fs with
    | Except.error e => Except.error e
    | Except.ok (p, fs2, wrote) => Except.ok (some p, fs2, wrote)
  else
    match alist_lookup st.image_mappings condition_id with
    | none => Except.error PyError.keyError
    | some condition_map =>
        match alist_lookup condition_map condition_time with
        | none => Except.error PyError.keyError
        | some filename =>
            let path := path_join st.image_dir filename
            match maybe_generate_custom_image st fs path filename with
            | Except.error e => Except.error e
            | Except.ok (fs2, wrote) => Except.ok (some path, fs2, wrote)

/-- Outcome of the directory-validation half of
`WeatherImageSelector._init_images` (source lines 443-465): either the
process terminates via `sys.exit(1)` with the printed diagnostic, or
initialization proceeds with the final `_image_dir` and the (possibly
extended, after `os.mkdir`) directory map. -/
inductive InitOutcome where
  | fatalExit : String → InitOutcome
  | proceeds : String → List (String × List String) → InitOutcome
deriving DecidableEq

/-- Embeds `WeatherImageSelector._is_image_dir`: the path exists and its
listing contains at least one file ending in `.png`. `fs_dirs` maps each
existing directory to its file listing. -/
def is_image_dir (fs_dirs : List (String × List String)) (path : String) : Bool :=
  match alist_lookup fs_dirs path with
  | none => false
  | some files => decide (0 < (files.filter (fun f => py_endswith f ".png")).length)

/-- Embeds the validation portion of `WeatherImageSelector._init_images`:
the image-set mode check, the custom-mode colour/SVG-directory handling
(`hex_of_color` is the result of the external `get_hex`, `none` meaning
it would have exited on an unparseable colour), and — for `light`/`dark`
— the directory check `elif self._is_image_dir(path): sys.exit(1)`,
exactly as written in the source. -/
def init_images_validate (image_dir image_set : String) (svg_dir : String)
    (hex_of_color : Option String) (fs_dirs : List (String × List String)) : InitOutcome :=
  if image_set ≠ "light" ∧ image_set ≠ "dark" ∧ image_set ≠ "custom" then
    InitOutcome.fatalExit "Invalid image_set value - choose light, dark, or custom"
  else if image_set = "custom" then
    match hex_of_color with
    | none => InitOutcome.fatalExit "Unknown color"
    | some hex =>
        if (alist_lookup fs_dirs svg_dir).isNone = true then
          InitOutcome.fatalExit "Invalid path for SVG images"
        else
          let path := path_join image_dir hex
          if (alist_lookup fs_dirs path).isNone = true then
            InitOutcome.proceeds path (fs_dirs ++ [(path, [])])
          else
            InitOutcome.proceeds path fs_dirs
  else
    let path := path_join image_dir image_set
    if is_image_dir fs_dirs path = true then
      InitOutcome.fatalExit "Invalid image directory"
    else
      InitOutcome.proceeds path fs_dirs

/-! Sample inputs used by witnesses. -/

/-- A well-formed current-conditions document (no `rain`/`snow` keys). -/
def sample_current_doc : Json :=
  Json.obj [("weather", Json.arr [Json.obj [("id", Json.num 800),
              ("description", Json.str "clear sky"), ("icon", Json.str "01d")]]),
            ("main", Json.obj [("humidity", Json.num 40), ("temp", Json.num 21)]),
            ("timezone", Json.num 3600),
            ("wind", Json.obj [("deg", Json.num 200), ("speed", Json.num 4)])]

/-- A well-formed forecast document whose `list` is empty. -/
def empty_forecast_doc : Json := Json.obj [("list", Json.arr [])]

/-- A previously committed current-conditions value. -/
def sample_committed_weather : Weather :=
  { condition_id := 801, condition_text := "few clouds",
    condition_time := "night", hourly_precip := 0, humidity := 60, temp := 18,
    timezone := 3600, wind_speed := 3, wind_dir := 90 }

/-- A fetcher state holding previously committed data, to make retention
observable. -/
def sample_fetcher_state : FetcherState :=
  { weather := some sample_committed_weather,
    forecasts := some [], last_weather_update := 1000, internet_active := true,
    _last_weather_fetch := 1000, _poll_interval_seconds := 300 }

/-! Claims C1, C10, C3 — fetcher update-cycle properties. -/

/-- C1: Combined commit is atomic. In any update cycle in which exactly one
of the two parses (current conditions or forecast) succeeds, the stored
`CurrentConditions`, the forecast sequence and the last-update timestamp
after `_fetch_weather` equal their values before the cycle: the partial
result is discarded entirely. -/
theorem fetch_weather_partial_parse_atomic
    (st : FetcherState) (weather_doc forecast_doc : Option Json) (t_fetch t_commit : ℚ)
    (h : (Option.bind weather_doc parse_current_weather).isSome ≠
         (Option.bind forecast_doc parse_forecasts).isSome) :
    (fetch_weather st weather_doc forecast_doc t_fetch t_commit).weather = st.weather ∧
    (fetch_weather st weather_doc forecast_doc t_fetch t_commit).forecasts = st.forecasts ∧
    (fetch_weather st weather_doc forecast_doc t_fetch t_commit).last_weather_update =
      st.last_weather_update := by
  unfold fetch_weather
  cases hw : Option.bind weather_doc parse_current_weather <;>
    cases hf : Option.bind forecast_doc parse_forecasts <;>
      simp_all

/-- Witness for C1: a cycle where the current-conditions parse succeeds
and the forecast fetch fails leaves all three state components unchanged. -/
theorem fetch_weather_partial_parse_atomic_witness :
    ((Option.bind (some sample_current_doc) parse_current_weather).isSome ≠
     (Option.bind (none : Option Json) parse_forecasts).isSome) ∧
    ((fetch_weather sample_fetcher_state (some sample_current_doc) none 2000 2001).weather =
        sample_fetcher_state.weather ∧
     (fetch_weather sample_fetcher_state (some sample_current_doc) none 2000 2001).forecasts =
        sample_fetcher_state.forecasts ∧
     (fetch_weather sample_fetcher_state (some sample_current_doc) none 2000 2001).last_weather_update =
        sample_fetcher_state.last_weather_update) :=
  ⟨by decide, fetch_weather_partial_parse_atomic sample_fetcher_state
      (some sample_current_doc) none 2000 2001 (by decide)⟩

/-- C10: when both documents parse successfully but the forecast `list` is
empty, the successfully parsed empty forecast sequence is treated like a
failed cycle: nothing is committed — stored conditions, forecast sequence
and last-update timestamp all remain unchanged. -/
theorem fetch_weather_empty_forecast_no_commit
    (st : FetcherState) (weather_doc forecast_doc : Option Json) (t_fetch t_commit : ℚ)
    (hw : (Option.bind weather_doc parse_current_weather).isSome = true)
    (hf : Option.bind forecast_doc parse_forecasts = some []) :
    (fetch_weather st weather_doc forecast_doc t_fetch t_commit).weather = st.weather ∧
    (fetch_weather st weather_doc forecast_doc t_fetch t_commit).forecasts = st.forecasts ∧
    (fetch_weather st weather_doc forecast_doc t_fetch t_commit).last_weather_update =
      st.last_weather_update := by
  unfold fetch_weather
  cases hwv : Option.bind weather_doc parse_current_weather <;> simp_all

/-- Witness for C10: a concrete cycle with a valid current document and a
forecast document whose `list` is `[]` commits nothing. -/
theorem fetch_weather_empty_forecast_no_commit_witness :
    ((Option.bind (some sample_current_doc) parse_current_weather).isSome = true) ∧
    (Option.bind (some empty_forecast_doc) parse_forecasts = some []) ∧
    ((fetch_weather sample_fetcher_state (some sample_current_doc)
        (some empty_forecast_doc) 2000 2001).weather = sample_fetcher_state.weather ∧
     (fetch_weather sample_fetcher_state (some sample_current_doc)
        (some empty_forecast_doc) 2000 2001).forecasts = sample_fetcher_state.forecasts ∧
     (fetch_weather sample_fetcher_state (some sample_current_doc)
        (some empty_forecast_doc) 2000 2001).last_weather_update =
       sample_fetcher_state.last_weather_update) :=
  ⟨by decide, by decide, fetch_weather_empty_forecast_no_commit sample_fetcher_state
      (some sample_current_doc) (some empty_forecast_doc) 2000 2001 (by decide) (by decide)⟩

/-- C3 (amended): `update_data` performs the pair of network fetches iff
the reachability probe succeeded and the current time strictly exceeds the
last fetch-*attempt* timestamp (`_last_weather_fetch`, set at the top of
every `_fetch_weather`, successful or not) plus the poll interval — not
the last *successful* combined-update timestamp. -/
theorem update_data_fetch_iff_attempt_gate
    (st : FetcherState) (probe_ok : Bool) (weather_doc forecast_doc : Option Json)
    (t_check t_fetch t_commit : ℚ) :
    (update_data st probe_ok weather_doc forecast_doc t_check t_fetch t_commit).2 = true ↔
      (probe_ok = true ∧ st._last_weather_fetch + st._poll_interval_seconds < t_check) := by
  by_cases hc : probe_ok = true ∧ st._last_weather_fetch + st._poll_interval_seconds < t_check <;>
    simp [update_data, hc]

/-- A fetcher state whose last *successful* update is long past but whose
last fetch *attempt* is recent: committed state from time 0, latest
attempt at time 100, poll interval 50. -/
def c3_state : FetcherState :=
  { weather := none, forecasts := none, last_weather_update := 0,
    internet_active := true, _last_weather_fetch := 100,
    _poll_interval_seconds := 50 }

/-- Counterexample to C3 as stated: a cycle at time 120 with a successful
reachability probe, where the elapsed time since the last successful
combined update (120 - 0) is at least the poll interval (50), yet
`update_data` performs no fetch — because the code gates on the last
fetch-attempt timestamp (100), and 120 < 100 + 50. -/
theorem update_data_elapsed_since_success_counterexample :
    c3_state._poll_interval_seconds ≤ (120 : ℚ) - c3_state.last_weather_update ∧
    (update_data c3_state true none none 120 120 120).2 = false := by
  constructor
  · norm_num [c3_state]
  · norm_num [update_data, c3_state]

/-! Claims C2, C4, C5, C6 — icon resolver and cache. -/

/-- A selector in `light` mode whose table maps code 800 only under the
`general` time-of-day key. -/
def sample_general_only_selector : SelectorState :=
  { image_dir := "icons/light", image_set := "light", color := "black",
    svg_dir := "svg", image_mappings := [(800, [("general", "wi-cloudy.png")])],
    _initialized := true }

/-- C2 (code bug): with a secondary mapping containing only a `general`
entry, `has_image` approves the pair `(800, "day")` (it explicitly checks
the `general` fallback), but `get_image` then indexes the secondary
mapping with `"day"` directly and raises `KeyError` instead of returning
the `general` asset; only the `"general"` tag itself resolves. -/
theorem get_image_general_only_key_error :
    has_image sample_general_only_selector 800 "day" = true ∧
    get_image sample_general_only_selector [] 800 "day" =
      Except.error PyError.keyError ∧
    get_image sample_general_only_selector [] 800 "general" =
      Except.ok (some (path_join "icons/light" "wi-cloudy.png"), [], false) := by
  decide

/-- A custom-mode selector with an empty mapping table, for resolving an
absent code against an empty filesystem. -/
def sample_custom_missing_selector : SelectorState :=
  { image_dir := "icons/#ff0000", image_set := "custom", color := "#ff0000",
    svg_dir := "svg", image_mappings := [], _initialized := true }

/-- Counterexample to C4 as stated: in custom mode, when neither the
cached `wi-na.png` nor its SVG template exists, resolving an absent code
raises `FileNotFoundError` (from opening the missing template) instead of
returning the unknown-condition path. -/
theorem get_image_absent_code_custom_raises :
    get_image sample_custom_missing_selector [] 999 "day" =
      Except.error PyError.fileNotFoundError := by
  decide

/-- The `wi-na` SVG template name derived by `_maybe_generate_custom_image`. -/
theorem na_png_to_svg : py_replace "wi-na.png" ".png" ".svg" = "wi-na.svg" := by
  decide

/-- C4 (amended): for every condition code absent from the mapping table
and every time-of-day tag, `get_image` resolves to the unknown-condition
asset path — the active directory joined with `wi-na.png` (so the path
ends in `wi-na.png`) — and does not raise, provided that in custom mode
either the cached `wi-na.png` or its SVG template is available; with both
missing in custom mode the generation step raises (see the
counterexample). -/
theorem get_image_absent_code_unknown
    (st : SelectorState) (fs : Fs) (condition_id : ℤ) (condition_time : String)
    (hinit : st._initialized = true)
    (habsent : alist_lookup st.image_mappings condition_id = none)
    (hgen : st.image_set = "custom" → path_join st.image_dir "wi-na.png" ∈ fs ∨
            path_join st.svg_dir "wi-na.svg" ∈ fs) :
    (∃ fs2 wrote, get_image st fs condition_id condition_time =
        Except.ok (some (path_join st.image_dir "wi-na.png"), fs2, wrote)) ∧
    "wi-na.png".data <:+ (path_join st.image_dir "wi-na.png").data := by
  have hhas : has_image st condition_id condition_time = false := by
    simp [has_image, hinit, habsent]
  refine ⟨?_, ⟨st.image_dir.data ++ ['/'], by simp [path_join]⟩⟩
  by_cases hc : st.image_set = "custom"
  · by_cases hp : path_join st.image_dir "wi-na.png" ∈ fs
    · exact ⟨fs, false, by
        simp [get_image, hinit, hhas, get_unknown_image,
          maybe_generate_custom_image, hp]⟩
    · rcases hgen hc with hin | hsvg
      · exact absurd hin hp
      · exact ⟨path_join st.image_dir "wi-na.png" :: fs, true, by
          simp [get_image, hinit, hhas, get_unknown_image,
            maybe_generate_custom_image, hc, hp, na_png_to_svg, hsvg]⟩
  · exact ⟨fs, false, by
      simp [get_image, hinit, hhas, get_unknown_image,
        maybe_generate_custom_image, hc]⟩

/-- A `light`-mode selector used to witness C4. -/
def sample_light_selector : SelectorState :=
  { image_dir := "icons/light", image_set := "light", color := "black",
    svg_dir := "svg", image_mappings := [(800, [("day", "wi-day-sunny.png")])],
    _initialized := true }

/-- Witness for C4 (amended): code 999 is unmapped and the light-mode
selector resolves it to `icons/light/wi-na.png` without error. -/
theorem get_image_absent_code_unknown_witness :
    sample_light_selector._initialized = true ∧
    alist_lookup sample_light_selector.image_mappings 999 = none ∧
    ((∃ fs2 wrote, get_image sample_light_selector [] 999 "day" =
        Except.ok (some (path_join sample_light_selector.image_dir "wi-na.png"), fs2, wrote)) ∧
     "wi-na.png".data <:+ (path_join sample_light_selector.image_dir "wi-na.png").data) :=
  ⟨rfl, by decide, get_image_absent_code_unknown sample_light_selector [] 999 "day"
      rfl (by decide) (by decide)⟩

/-- C5 (code bug): the non-custom directory validation is inverted. With
mode `light` and a target directory `icons/light` that contains a
qualifying `.png` asset, `_init_images` terminates the process
(`sys.exit(1)` after printing the "Invalid image directory" diagnostic);
with the directory absent (hence containing no qualifying asset), it
proceeds past validation. The source's `elif self._is_image_dir(path):`
is missing a `not`. -/
theorem init_images_validate_inverted :
    init_images_validate "icons" "light" "svg" (some "#000000")
        [("icons/light", ["wi-na.png"]), ("svg", [])] =
      InitOutcome.fatalExit "Invalid image directory" ∧
    init_images_validate "icons" "light" "svg" (some "#000000") [("svg", [])] =
      InitOutcome.proceeds "icons/light" [("svg", [])] := by
  decide

/-- A custom-mode selector mapping code 800 at tag `day`, for the
memoization claim. -/
def sample_custom_selector : SelectorState :=
  { image_dir := "icons/#00ff00", image_set := "custom", color := "#00ff00",
    svg_dir := "svg", image_mappings := [(800, [("day", "wi-day-sunny.png")])],
    _initialized := true }

/-- C6: custom-colour asset generation is lazy and memoized. In custom
mode, with the mapped asset not yet generated and its SVG template
present, the first `get_image` call generates the file (exactly one
write, the path comes into existence) and the second call on the updated
filesystem performs no generation and returns the same path with the
filesystem unchanged. -/
theorem get_image_custom_memoized
    (st : SelectorState) (fs : Fs) (condition_id : ℤ)
    (condition_time filename : String) (condition_map : List (String × String))
    (hinit : st._initialized = true)
    (hset : st.image_set = "custom")
    (hmap : alist_lookup st.image_mappings condition_id = some condition_map)
    (hfile : alist_lookup condition_map condition_time = some filename)
    (hmiss : path_join st.image_dir filename ∉ fs)
    (hsvg : path_join st.svg_dir (py_replace filename ".png" ".svg") ∈ fs) :
    get_image st fs condition_id condition_time =
      Except.ok (some (path_join st.image_dir filename),
        path_join st.image_dir filename :: fs, true) ∧
    get_image st (path_join st.image_dir filename :: fs) condition_id condition_time =
      Except.ok (some (path_join st.image_dir filename),
        path_join st.image_dir filename :: fs, false) := by
  have hhas : has_image st condition_id condition_time = true := by
    simp [has_image, hinit, hmap, hfile]
  constructor
  · simp [get_image, hinit, hhas, hmap, hfile, maybe_generate_custom_image,
      hset, hmiss, hsvg]
  · simp [get_image, hinit, hhas, hmap, hfile, maybe_generate_custom_image]

/-- Witness for C6: concrete first and second resolution of
`(800, "day")` in custom mode with only the SVG template on disk. -/
theorem get_image_custom_memoized_witness :
    sample_custom_selector._initialized = true ∧
    sample_custom_selector.image_set = "custom" ∧
    alist_lookup sample_custom_selector.image_mappings 800 =
      some [("day", "wi-day-sunny.png")] ∧
    alist_lookup [("day", "wi-day-sunny.png")] "day" = some "wi-day-sunny.png" ∧
    path_join sample_custom_selector.image_dir "wi-day-sunny.png" ∉
      ["svg/wi-day-sunny.svg"] ∧
    path_join sample_custom_selector.svg_dir
        (py_replace "wi-day-sunny.png" ".png" ".svg") ∈ ["svg/wi-day-sunny.svg"] ∧
    (get_image sample_custom_selector ["svg/wi-day-sunny.svg"] 800 "day" =
      Except.ok (some (path_join sample_custom_selector.image_dir "wi-day-sunny.png"),
        path_join sample_custom_selector.image_dir "wi-day-sunny.png" ::
          ["svg/wi-day-sunny.svg"], true) ∧
     get_image sample_custom_selector
        (path_join sample_custom_selector.image_dir "wi-day-sunny.png" ::
          ["svg/wi-day-sunny.svg"]) 800 "day" =
      Except.ok (some (path_join sample_custom_selector.image_dir "wi-day-sunny.png"),
        path_join sample_custom_selector.image_dir "wi-day-sunny.png" ::
          ["svg/wi-day-sunny.svg"], false)) :=
  ⟨rfl, rfl, by decide, by decide, by decide, by decide,
   get_image_custom_memoized sample_custom_selector ["svg/wi-day-sunny.svg"] 800 "day"
     "wi-day-sunny.png" [("day", "wi-day-sunny.png")] rfl rfl (by decide) (by decide)
     (by decide) (by decide)⟩

/-! Claims C7, C8, C9 — formatting. -/

/-- Evaluation fact: `round(0 / 22.5) = 0`. -/
theorem wind_index_zero : wind_index 0 = 0 := by
  norm_num [wind_index, round_eq]

/-- Evaluation fact: `round(359 / 22.5) = 16`. -/
theorem wind_index_wrap : wind_index 359 = 16 := by
  norm_num [wind_index, round_eq]

/-- Evaluation fact: `round(180 / 22.5) = 8`. -/
theorem wind_index_south : wind_index 180 = 8 := by
  norm_num [wind_index, round_eq]

/-- Degree 0 resolves to the compass label `N`. -/
theorem wind_label_zero : wind_direction_label 0 = "N" := by
  rw [wind_direction_label, wind_index_zero]
  decide

/-- Degree 359 wraps (index 16, taken mod 16) to the compass label `N`. -/
theorem wind_label_wrap : wind_direction_label 359 = "N" := by
  rw [wind_direction_label, wind_index_wrap]
  decide

/-- Degree 180 resolves to the compass label `S`. -/
theorem wind_label_south : wind_direction_label 180 = "S" := by
  rw [wind_direction_label, wind_index_south]
  decide

/-- C7: the compass label in the formatted wind string is obtained by
dividing the degree by `360/16`, rounding to the nearest integer
(`wind_index degree` is a nearest multiple-of-22.5 index: no integer is
closer), and indexing modulo 16 into the 16-entry direction table; degree
0 yields `N`, degree 359 wraps to `N`, degree 180 yields `S`; and every
successful `format_wind_speed` rendering (here with the imperial
formatter, the mode in which the attribute access succeeds) carries
exactly that label as its final component. -/
theorem format_wind_speed_direction_spec :
    (∀ (degree : ℚ) (k : ℤ),
        |degree / (360 / 16) - (wind_index degree : ℚ)| ≤
          |degree / (360 / 16) - (k : ℚ)|) ∧
    wind_direction_label 0 = "N" ∧
    wind_direction_label 359 = "N" ∧
    wind_direction_label 180 = "S" ∧
    (∀ (speed degree : ℚ) (label : String),
        format_wind_speed (formatter_init "%H:%M" "%c" "imperial") speed degree label =
          Except.ok (label ++ " " ++ toString (ratTrunc speed) ++ " " ++ "mph" ++ " " ++
            wind_direction_label degree)) := by
  refine ⟨fun degree k => round_le (degree / (360 / 16)) k,
    wind_label_zero, wind_label_wrap, wind_label_south,
    fun speed degree label => ?_⟩
  simp [format_wind_speed, formatter_init]

/-- C8 (code bug): `__init__` stores the metric default `"m/s"` in the
attribute `wind_unit` but `format_wind_speed` reads `_wind_unit`, which
only the imperial branch assigns. A metric-configured formatter therefore
raises `AttributeError` on any wind formatting call instead of rendering
the `m/s` suffix, while an imperial one renders the `mph` suffix. -/
theorem format_wind_speed_metric_attribute_error :
    (formatter_init "%H:%M" "%c" "metric").wind_unit = "m/s" ∧
    (formatter_init "%H:%M" "%c" "metric")._wind_unit = none ∧
    format_wind_speed (formatter_init "%H:%M" "%c" "metric") 5 0 "" =
      Except.error PyError.attributeError ∧
    format_wind_speed (formatter_init "%H:%M" "%c" "imperial") 5 0 "" =
      Except.ok " 5 mph N" := by
  refine ⟨by decide, by decide, by decide, ?_⟩
  have h : format_wind_speed (formatter_init "%H:%M" "%c" "imperial") 5 0 "" =
      Except.ok ("" ++ " " ++ toString (ratTrunc 5) ++ " " ++ "mph" ++ " " ++
        wind_direction_label 0) := by
    simp [format_wind_speed, formatter_init]
  rw [h, wind_label_zero]
  have h5 : ratTrunc 5 = 5 := by norm_num [ratTrunc]
  rw [h5]
  decide

/-- A forecast document with a single entry whose `pop` is the fraction
`1/2`. -/
def sample_forecast_doc : Json :=
  Json.obj [("list", Json.arr [Json.obj [
    ("weather", Json.arr [Json.obj [("id", Json.num 500),
      ("description", Json.str "light rain"), ("icon", Json.str "10d")]]),
    ("main", Json.obj [("humidity", Json.num 80), ("temp", Json.num 15)]),
    ("pop", Json.num (1/2)),
    ("dt", Json.num 1700000000)]])]

/-- The entry the fetcher stores for `sample_forecast_doc`: note
`precip_chance = 50`, i.e. the provider fraction already scaled by 100 at
parse time. -/
def sample_forecast_entry : Forecast :=
  { condition_id := 500, condition_text := "light rain", condition_time := "day",
    humidity := 80, precip_chance := 50, temp := 15, timestamp := 1700000000 }

/-- C9 (code bug): a provider `pop` of `0.5` is stored as
`precip_chance = 50` (scaled by 100 at parse time, not held as a 0.0-1.0
fraction), and `format_forecast` then multiplies by 100 again before the
percentage formatter, rendering `P: 5000%` — outside the 0-100 percent
display range the claim requires. -/
theorem format_forecast_double_scaling :
    parse_forecasts sample_forecast_doc = some [sample_forecast_entry] ∧
    sample_forecast_entry.precip_chance = 50 ∧
    format_forecast (formatter_init "%H:%M" "%c" "metric") sample_forecast_entry =
      Except.ok "T: 15 °C\nH: 80%\nP: 5000%" := by
  refine ⟨?_, rfl, ?_⟩
  · have h : parse_forecasts sample_forecast_doc =
        some [{ condition_id := 500, condition_text := "light rain",
                condition_time := "day", humidity := 80,
                precip_chance := (1/2 : ℚ) * 100, temp := 15,
                timestamp := 1700000000 }] := rfl
    rw [h]
    norm_num [sample_forecast_entry]
  · have h15 : ratTrunc 15 = 15 := by norm_num [ratTrunc]
    have h80 : ratTrunc 80 = 80 := by norm_num [ratTrunc]
    have h5000 : ratTrunc ((50 : ℚ) * 100) = 5000 := by norm_num [ratTrunc]
    simp [format_forecast, format_temp, format_percentage, formatter_init,
      sample_forecast_entry, h15, h80, h5000]
    decide

end WeatherDisplay
